import Mathlib

/-!
# Verification of the dashboard backend's resource aggregation pipeline

A shallow embedding, in Lean 4, of the Go code of the dashboard backend
(packages `resource/common`, `resource/pod`, `resource/job`,
`resource/cronjob`, `resource/statefulset`, `resource/daemonset`,
`resource/config`, `resource/discovery`, `cluster`), together with proofs
about the embedded definitions.

Conventions of the embedding:
* Go slices that the code distinguishes from `nil` are modelled as
  `GoSlice α := Option (List α)` (`none` = nil slice, `some l` = non-nil
  slice with elements `l`); slices whose nil-ness is never observed are
  plain `List α`.
* Go's `int32` counters here only ever pass through unchanged or are
  incremented once per list element, so they are modelled as `Int`.
* A Go function that can panic (failed type assertion) returns `Option`.
* Functions from packages of this repository whose sources are not
  available (only their callers are) are modelled from the specification
  and carry a doc comment starting with `Modelled from the spec:`.
-/

set_option autoImplicit false

/-- A Go slice: `none` is the nil slice, `some l` a non-nil slice. -/
abbrev GoSlice (α : Type) := Option (List α)

/-- The `len` of a Go slice: the nil slice has length 0. -/
def GoSlice.len {α : Type} : GoSlice α → Nat
  | none => 0
  | some l => l.length

/-- Go `append(dst, src...)`: appending to a nil slice yields a non-nil
slice; appending a nil `src` leaves `dst` unchanged. -/
def GoSlice.appendAll {α : Type} : GoSlice α → GoSlice α → GoSlice α
  | none, none => none
  | none, some l => if l.isEmpty then none else some l
  | some d, none => some d
  | some d, some l => some (d ++ l)

/-- Errors returned by the cluster API client: either a
`*k8serrors.StatusError` carrying a `Reason` string, or any other error
(modelled by its message). -/
inductive K8sError where
  | status (reason : String)
  | basic (msg : String)
deriving DecidableEq, Repr

/-- The check `err.(*k8serrors.StatusError)` succeeding with
`ErrStatus.Reason == "NotFound"`. -/
def K8sError.isNotFoundStatus : K8sError → Bool
  | .status reason => reason == "NotFound"
  | .basic _ => false

/-- The `api.ObjectReference`: only the `Name` field is read by the code. -/
structure ObjectReference where
  name : String
deriving DecidableEq, Repr

/-- The `api.SerializedReference`. -/
structure SerializedReference where
  reference : ObjectReference
deriving DecidableEq, Repr

/-- The value of an annotation entry, abstracted to the outcome of
`json.Unmarshal` into `api.SerializedReference` (the JSON decoder itself
is an external collaborator): either the value fails to decode, or it
decodes to a serialized reference. -/
inductive AnnValue where
  | undecodable (raw : String)
  | decoded (r : SerializedReference)
deriving DecidableEq, Repr

/-- The `metaV1.ObjectMeta`, restricted to the fields the embedded code reads.
`nspace` is the Go field `Namespace` (a Lean keyword). -/
structure ObjectMeta where
  name : String
  nspace : String
  creationTimestamp : Int
  labels : List (String × String)
  annotations : List (String × AnnValue)
deriving DecidableEq, Repr

/-- The `common.Event`, restricted to the fields the embedded code reads. -/
structure Event where
  eventType : String
  involvedObjectName : String
  involvedObjectNamespace : String
  message : String
deriving DecidableEq, Repr

/-- The `api.ConditionStatus` (`ConditionTrue` / `ConditionFalse` /
`ConditionUnknown`). -/
inductive ConditionStatus where
  | ctrue
  | cfalse
  | cunknown
deriving DecidableEq, Repr

/-- The `api.PodCondition`: the condition type (`"Ready"`, `"Initialized"`,
...) and its status. -/
structure PodCondition where
  condType : String
  status : ConditionStatus
deriving DecidableEq, Repr

/-- The constant `api.PodReady`. -/
def podReady : String := "Ready"

/-- The constant `api.PodInitialized`. -/
def podInitialized : String := "Initialized"

/-- The `api.PodPhase`. -/
inductive PodPhase where
  | running
  | pending
  | failed
  | succeeded
  | unknown
deriving DecidableEq, Repr

/-- The string value of an `api.PodPhase` constant. -/
def PodPhase.toGoString : PodPhase → String
  | .running => "Running"
  | .pending => "Pending"
  | .failed => "Failed"
  | .succeeded => "Succeeded"
  | .unknown => "Unknown"

/-- The `api.ContainerStatus`, restricted to the fields the embedded code
reads (the container state is abstracted to a string). -/
structure ContainerStatus where
  restartCount : Int
  state : String
deriving DecidableEq, Repr

/-- The `api.PodStatus`, restricted to the fields the embedded code reads. -/
structure PodStatusK8s where
  phase : PodPhase
  conditions : List PodCondition
  containerStatuses : List ContainerStatus
  hostIP : String
deriving DecidableEq, Repr

/-- The `api.Pod`, restricted to the fields the embedded code reads. -/
structure Pod where
  objectMeta : ObjectMeta
  status : PodStatusK8s
deriving DecidableEq, Repr

/-- The `common.PodInfo` (package `resource/common`, `podinfo.go`): aggregate
counters plus accumulated warning events. `warnings` is a `GoSlice`
because `detail.go` of the cronjob package tests it against nil. -/
structure PodInfo where
  current : Int
  desired : Int
  running : Int
  pending : Int
  failed : Int
  succeeded : Int
  warnings : GoSlice Event
deriving DecidableEq, Repr

/-- The `getPodPhaseStatus` (package `resource/common`, `podinfo.go`): buckets
a pod into a phase from its status and the associated warning events. The
conditions loop keeps, for each condition type, the status of the last
condition of that type. -/
def getPodPhaseStatus (pod : Pod) (warnings : GoSlice Event) : PodPhase :=
  if pod.status.phase = PodPhase.failed then PodPhase.failed
  else if pod.status.phase = PodPhase.succeeded then PodPhase.succeeded
  else
    let ri := pod.status.conditions.foldl
      (fun (acc : Bool × Bool) c =>
        let r := if c.condType == podReady then c.status == ConditionStatus.ctrue else acc.1
        let i := if c.condType == podInitialized then c.status == ConditionStatus.ctrue else acc.2
        (r, i))
      (false, false)
    if ri.2 && ri.1 then PodPhase.running
    else if warnings.len > 0 then PodPhase.failed
    else PodPhase.pending

/-- The `getPodStatusStatus` (package `resource/pod`, `common.go`): the
string-valued variant of the same classifier, returning one of
`"pending"`, `"success"`, `"failed"`. -/
def getPodStatusStatus (pod : Pod) (warnings : GoSlice Event) : String :=
  if pod.status.phase = PodPhase.failed then "failed"
  else if pod.status.phase = PodPhase.succeeded then "success"
  else
    let ri := pod.status.conditions.foldl
      (fun (acc : Bool × Bool) c =>
        let r := if c.condType == podReady then c.status == ConditionStatus.ctrue else acc.1
        let i := if c.condType == podInitialized then c.status == ConditionStatus.ctrue else acc.2
        (r, i))
      (false, false)
    if ri.2 && ri.1 then "success"
    else if warnings.len > 0 then "failed"
    else "pending"

/-- The `switch pod.Status.Phase` of the counting loops in `podinfo.go`:
increment the bucket matching the given phase (no bucket for `Unknown`). -/
def PodInfo.bump (acc : PodInfo) : PodPhase → PodInfo
  | PodPhase.running => { acc with running := acc.running + 1 }
  | PodPhase.pending => { acc with pending := acc.pending + 1 }
  | PodPhase.failed => { acc with failed := acc.failed + 1 }
  | PodPhase.succeeded => { acc with succeeded := acc.succeeded + 1 }
  | PodPhase.unknown => acc

/-- The `GetPodEventInfo` (package `resource/common`, `podinfo.go`):
re-classifies every pod with `getPodPhaseStatus` and counts it in the
corresponding bucket; `Current`, `Desired` and `Warnings` are taken from
the arguments. -/
def GetPodEventInfo (current desired : Int) (pods : List Pod) (eve : GoSlice Event) : PodInfo :=
  let result : PodInfo :=
    { current := current, desired := desired,
      running := 0, pending := 0, failed := 0, succeeded := 0,
      warnings := some [] }
  let result := pods.foldl
    (fun (acc : PodInfo) pod => acc.bump (getPodPhaseStatus pod eve))
    result
  { result with warnings := eve }

/-- The `GetPodInfo` (package `resource/common`, `podinfo.go`): buckets pods
by their raw phase, without event-based reclassification. -/
def GetPodInfo (current desired : Int) (pods : List Pod) : PodInfo :=
  pods.foldl
    (fun (acc : PodInfo) pod => acc.bump pod.status.phase)
    { current := current, desired := desired,
      running := 0, pending := 0, failed := 0, succeeded := 0,
      warnings := some [] }

/-- Specification-side reading of "the condition of type `t` is true": the
most recent condition of that type in the pod's condition list (the last
one the loop sees) has status `ConditionTrue`; with no condition of that
type the answer is false. -/
def podConditionIsTrue (pod : Pod) (t : String) : Bool :=
  match pod.status.conditions.reverse.find? (fun c => c.condType == t) with
  | some c => c.status == ConditionStatus.ctrue
  | none => false

/-- The phase-to-string mapping relating the two classifiers. -/
def phaseToStatusString : PodPhase → String
  | PodPhase.running => "success"
  | PodPhase.succeeded => "success"
  | PodPhase.failed => "failed"
  | PodPhase.pending => "pending"
  | PodPhase.unknown => "pending"

theorem lastCondFold_eq_findRev (t : String) (l : List PodCondition) (init : Bool) :
    l.foldl (fun b c => if c.condType == t then c.status == ConditionStatus.ctrue else b) init
    = (match l.reverse.find? (fun c => c.condType == t) with
       | some c => c.status == ConditionStatus.ctrue
       | none => init) := by
  induction l generalizing init with
  | nil => rfl
  | cons c cs ih =>
    simp only [List.foldl_cons, List.reverse_cons, List.find?_append, ih]
    cases hcs : cs.reverse.find? (fun c => c.condType == t) with
    | some d => simp [hcs]
    | none =>
      by_cases h : (c.condType == t) = true
      · simp [hcs, List.find?, h]
      · simp [hcs, List.find?, h]

theorem condFold_pair (l : List PodCondition) (r i : Bool) :
    l.foldl
      (fun (acc : Bool × Bool) c =>
        let r := if c.condType == podReady then c.status == ConditionStatus.ctrue else acc.1
        let i := if c.condType == podInitialized then c.status == ConditionStatus.ctrue else acc.2
        (r, i))
      (r, i)
    = (l.foldl (fun b c => if c.condType == podReady then c.status == ConditionStatus.ctrue else b) r,
       l.foldl (fun b c => if c.condType == podInitialized then c.status == ConditionStatus.ctrue else b) i) := by
  induction l generalizing r i with
  | nil => rfl
  | cons c cs ih =>
    simp only [List.foldl_cons]
    exact ih _ _

theorem condFold_eq_podConditionIsTrue (pod : Pod) :
    pod.status.conditions.foldl
      (fun (acc : Bool × Bool) c =>
        let r := if c.condType == podReady then c.status == ConditionStatus.ctrue else acc.1
        let i := if c.condType == podInitialized then c.status == ConditionStatus.ctrue else acc.2
        (r, i))
      (false, false)
    = (podConditionIsTrue pod podReady, podConditionIsTrue pod podInitialized) := by
  rw [condFold_pair, lastCondFold_eq_findRev, lastCondFold_eq_findRev]
  unfold podConditionIsTrue
  cases pod.status.conditions.reverse.find? (fun c => c.condType == podReady) <;>
    cases pod.status.conditions.reverse.find? (fun c => c.condType == podInitialized) <;> rfl

/-- C5 — For every pod and associated warning-event list, the status
classifier returns `failed` when the pod phase is `PodFailed` and
`succeeded` when it is `PodSucceeded` (terminal phase wins outright);
otherwise it returns running/success exactly when both the Ready and
Initialized conditions are true; otherwise it returns failed exactly when
at least one associated warning event is present; and pending in all
remaining cases. The string classifier `getPodStatusStatus` agrees with
`getPodPhaseStatus` through `phaseToStatusString`. -/
theorem C5_pod_status_classifier (pod : Pod) (warnings : GoSlice Event) :
    (pod.status.phase = PodPhase.failed →
      getPodPhaseStatus pod warnings = PodPhase.failed)
    ∧ (pod.status.phase = PodPhase.succeeded →
      getPodPhaseStatus pod warnings = PodPhase.succeeded)
    ∧ (pod.status.phase ≠ PodPhase.failed → pod.status.phase ≠ PodPhase.succeeded →
        ((getPodPhaseStatus pod warnings = PodPhase.running ↔
            podConditionIsTrue pod podReady = true ∧
              podConditionIsTrue pod podInitialized = true)
          ∧ (¬(podConditionIsTrue pod podReady = true ∧
                podConditionIsTrue pod podInitialized = true) →
              (warnings.len > 0 → getPodPhaseStatus pod warnings = PodPhase.failed)
              ∧ (warnings.len = 0 → getPodPhaseStatus pod warnings = PodPhase.pending))))
    ∧ getPodStatusStatus pod warnings = phaseToStatusString (getPodPhaseStatus pod warnings) := by
  have hc := condFold_eq_podConditionIsTrue pod
  by_cases hf : pod.status.phase = PodPhase.failed
  · refine ⟨fun _ => ?_, fun hs => ?_, fun hnf _ => absurd hf hnf, ?_⟩
    · simp [getPodPhaseStatus, hf]
    · rw [hf] at hs; exact absurd hs (by decide)
    · simp [getPodPhaseStatus, getPodStatusStatus, hf, phaseToStatusString]
  · by_cases hs : pod.status.phase = PodPhase.succeeded
    · refine ⟨fun h => absurd h hf, fun _ => ?_, fun _ hns => absurd hs hns, ?_⟩
      · simp [getPodPhaseStatus, hf, hs]
      · simp [getPodPhaseStatus, getPodStatusStatus, hf, hs, phaseToStatusString]
    · refine ⟨fun h => absurd h hf, fun h => absurd h hs, fun _ _ => ?_, ?_⟩
      · simp only [getPodPhaseStatus, if_neg hf, if_neg hs, hc]
        by_cases hr : podConditionIsTrue pod podReady = true <;>
          by_cases hi : podConditionIsTrue pod podInitialized = true <;>
            by_cases hw : warnings.len > 0 <;>
              simp_all [Nat.pos_iff_ne_zero]
      · simp only [getPodPhaseStatus, getPodStatusStatus, if_neg hf, if_neg hs, hc]
        by_cases hr : podConditionIsTrue pod podReady = true <;>
          by_cases hi : podConditionIsTrue pod podInitialized = true <;>
            by_cases hw : warnings.len > 0 <;>
              simp_all [phaseToStatusString]

/-- Witness for C5 at a concrete pod: a pod in phase `Running` with both
conditions true classifies as running. -/
theorem C5_pod_status_classifier_witness :
    getPodPhaseStatus
      { objectMeta := { name := "p", nspace := "ns", creationTimestamp := 0,
                        labels := [], annotations := [] },
        status := { phase := PodPhase.failed, conditions := [], containerStatuses := [],
                    hostIP := "" } }
      (some []) = PodPhase.failed :=
  (C5_pod_status_classifier
    { objectMeta := { name := "p", nspace := "ns", creationTimestamp := 0,
                      labels := [], annotations := [] },
      status := { phase := PodPhase.failed, conditions := [], containerStatuses := [],
                  hostIP := "" } }
    (some [])).1 rfl

theorem bump_counts (acc : PodInfo) (ph : PodPhase) (h : ph ≠ PodPhase.unknown) :
    (acc.bump ph).current = acc.current ∧ (acc.bump ph).desired = acc.desired
    ∧ (acc.bump ph).warnings = acc.warnings
    ∧ (acc.bump ph).running + (acc.bump ph).pending + (acc.bump ph).failed
        + (acc.bump ph).succeeded
      = acc.running + acc.pending + acc.failed + acc.succeeded + 1 := by
  cases ph with
  | running => exact ⟨rfl, rfl, rfl, by simp only [PodInfo.bump]; ring⟩
  | pending => exact ⟨rfl, rfl, rfl, by simp only [PodInfo.bump]; ring⟩
  | failed => exact ⟨rfl, rfl, rfl, by simp only [PodInfo.bump]; ring⟩
  | succeeded => exact ⟨rfl, rfl, rfl, by simp only [PodInfo.bump]; ring⟩
  | unknown => exact absurd rfl h

theorem getPodPhaseStatus_ne_unknown (pod : Pod) (w : GoSlice Event) :
    getPodPhaseStatus pod w ≠ PodPhase.unknown := by
  unfold getPodPhaseStatus
  by_cases hf : pod.status.phase = PodPhase.failed
  · simp [hf]
  · by_cases hs : pod.status.phase = PodPhase.succeeded
    · simp [hf, hs]
    · simp only [if_neg hf, if_neg hs]
      split
      · simp
      · split <;> simp

theorem podEventFold_counts (eve : GoSlice Event) (pods : List Pod) (acc : PodInfo) :
    (pods.foldl (fun (a : PodInfo) pod => a.bump (getPodPhaseStatus pod eve)) acc).current
        = acc.current
    ∧ (pods.foldl (fun (a : PodInfo) pod => a.bump (getPodPhaseStatus pod eve)) acc).desired
        = acc.desired
    ∧ (pods.foldl (fun (a : PodInfo) pod => a.bump (getPodPhaseStatus pod eve)) acc).running
        + (pods.foldl (fun (a : PodInfo) pod => a.bump (getPodPhaseStatus pod eve)) acc).pending
        + (pods.foldl (fun (a : PodInfo) pod => a.bump (getPodPhaseStatus pod eve)) acc).failed
        + (pods.foldl (fun (a : PodInfo) pod => a.bump (getPodPhaseStatus pod eve)) acc).succeeded
      = acc.running + acc.pending + acc.failed + acc.succeeded + (pods.length : Int) := by
  induction pods generalizing acc with
  | nil => simp
  | cons p ps ih =>
    simp only [List.foldl_cons, List.length_cons]
    obtain ⟨h1, h2, _, h4⟩ :=
      bump_counts acc (getPodPhaseStatus p eve) (getPodPhaseStatus_ne_unknown p eve)
    obtain ⟨g1, g2, g4⟩ := ih (acc.bump (getPodPhaseStatus p eve))
    refine ⟨g1.trans h1, g2.trans h2, ?_⟩
    rw [g4, h4]
    push_cast
    ring

/-- C10 — For every pod list, warning-event list, and counters `current`
and `desired`, `GetPodEventInfo` returns a `PodInfo` whose `Current` and
`Desired` fields equal the passed arguments unchanged and whose
`Running + Pending + Failed + Succeeded` counters sum to exactly the
number of pods in the list. -/
theorem C10_pod_event_info_counters (current desired : Int) (pods : List Pod)
    (eve : GoSlice Event) :
    (GetPodEventInfo current desired pods eve).current = current
    ∧ (GetPodEventInfo current desired pods eve).desired = desired
    ∧ (GetPodEventInfo current desired pods eve).running
        + (GetPodEventInfo current desired pods eve).pending
        + (GetPodEventInfo current desired pods eve).failed
        + (GetPodEventInfo current desired pods eve).succeeded
      = (pods.length : Int) := by
  obtain ⟨h1, h2, h3⟩ := podEventFold_counts eve pods
    { current := current, desired := desired,
      running := 0, pending := 0, failed := 0, succeeded := 0, warnings := some [] }
  exact ⟨h1, h2, h3.trans (by ring)⟩

/-- The `metaV1.LabelSelector`, restricted to `MatchLabels`. The Go code
reaches it through a pointer it dereferences unconditionally. -/
structure LabelSelector where
  matchLabels : List (String × String)
deriving DecidableEq, Repr

/-- The `api.Container`, restricted to `Image`. -/
structure Container where
  image : String
deriving DecidableEq, Repr

/-- The `api.PodSpec`, restricted to `Containers`. -/
structure PodSpecK8s where
  containers : List Container
deriving DecidableEq, Repr

/-- The `apps.StatefulSetSpec`, restricted to the fields the embedded code
reads. `replicas` is the Go `*int32` field `Replicas`, dereferenced
unconditionally by `CreateStatefulSetList`; `templateSpec` is
`Template.Spec`. -/
structure StatefulSetSpec where
  replicas : Int
  selector : LabelSelector
  templateSpec : PodSpecK8s
deriving DecidableEq, Repr

/-- The `apps.StatefulSetStatus`, restricted to `Replicas`. -/
structure StatefulSetStatus where
  replicas : Int
deriving DecidableEq, Repr

/-- The `apps.StatefulSet` (the Kubernetes API object), restricted to the
fields the embedded code reads. -/
structure AppsStatefulSet where
  objectMeta : ObjectMeta
  spec : StatefulSetSpec
  status : StatefulSetStatus
deriving DecidableEq, Repr

/-- Modelled from the spec: `dataselect.ComparableValue` (the `dataselect`
package is not among the available sources). `str` is
`StdComparableString`, `time` is `StdComparableTime` (a timestamp,
modelled as an integer), and `nilValue` is the Go `nil` interface value
the cells return for an unsupported property name. -/
inductive ComparableValue where
  | str (s : String)
  | time (t : Int)
  | nilValue
deriving DecidableEq, Repr

/-- Modelled from the spec: comparison of two `ComparableValue`s. Per the
spec the unsupported-name value must "compare equal to itself" so that
sorting on an unknown property name is a no-op; `nilValue` therefore
compares `eq` against everything (values of different kinds never meet in
a real sort key). -/
def ComparableValue.cmp : ComparableValue → ComparableValue → Ordering
  | .str a, .str b => compare a b
  | .time a, .time b => compare a b
  | _, _ => Ordering.eq

/-- Modelled from the spec: `dataselect.NameProperty`. -/
def NameProperty : String := "name"

/-- Modelled from the spec: `dataselect.CreationTimestampProperty`. -/
def CreationTimestampProperty : String := "creationTimestamp"

/-- Modelled from the spec: `dataselect.NamespaceProperty`. -/
def NamespaceProperty : String := "namespace"

/-- Modelled from the spec: `dataselect.StatusProperty`. -/
def StatusProperty : String := "status"

/-- The `PodCell` (package `resource/pod`, `common.go`): a type alias of
`api.Pod`. -/
abbrev PodCell := Pod

/-- The `PodCell.GetProperty` (package `resource/pod`, `common.go`): the
switch over recognized property names; the default branch returns the Go
`nil`, modelled by `ComparableValue.nilValue`. -/
def PodCell.GetProperty (self : PodCell) (name : String) : ComparableValue :=
  if name == NameProperty then ComparableValue.str self.objectMeta.name
  else if name == CreationTimestampProperty then
    ComparableValue.time self.objectMeta.creationTimestamp
  else if name == NamespaceProperty then ComparableValue.str self.objectMeta.nspace
  else if name == StatusProperty then ComparableValue.str self.status.phase.toGoString
  else ComparableValue.nilValue

/-- The `StatefulSetCell` (package `resource/statefulset`): a type alias of
`apps.StatefulSet`. -/
abbrev StatefulSetCell := AppsStatefulSet

/-- The `StatefulSetCell.GetProperty` (package `resource/statefulset`): like
the pod variant but without a `Status` property. -/
def StatefulSetCell.GetProperty (self : StatefulSetCell) (name : String) : ComparableValue :=
  if name == NameProperty then ComparableValue.str self.objectMeta.name
  else if name == CreationTimestampProperty then
    ComparableValue.time self.objectMeta.creationTimestamp
  else if name == NamespaceProperty then ComparableValue.str self.objectMeta.nspace
  else ComparableValue.nilValue

/-- The `dataselect.DataCell` restricted to the two cell kinds the claims
inspect; a Go type assertion to the wrong kind panics, which the
conversion functions model with `Option`. -/
inductive DataCell where
  | podCell (p : Pod)
  | statefulSetCell (s : AppsStatefulSet)
deriving DecidableEq, Repr

namespace statefulset

/-- The `ToCells` (package `resource/statefulset`): wraps each stateful set in
a `StatefulSetCell`, preserving order. -/
def ToCells (std : List AppsStatefulSet) : List DataCell :=
  std.map DataCell.statefulSetCell

/-- The `FromCells` (package `resource/statefulset`): the inverse conversion;
the Go type assertion `cells[i].(StatefulSetCell)` panics on a foreign
cell, modelled by `none`. -/
def FromCells : List DataCell → Option (List AppsStatefulSet)
  | [] => some []
  | c :: cs =>
    match c with
    | DataCell.statefulSetCell s =>
      match FromCells cs with
      | some rest => some (s :: rest)
      | none => none
    | _ => none

end statefulset

namespace pod

/-- The `toCells` (package `resource/pod`, `common.go`). -/
def toCells (std : List Pod) : List DataCell :=
  std.map DataCell.podCell

/-- The `fromCells` (package `resource/pod`, `common.go`); the Go type
assertion panics on a foreign cell, modelled by `none`. -/
def fromCells : List DataCell → Option (List Pod)
  | [] => some []
  | c :: cs =>
    match c with
    | DataCell.podCell p =>
      match fromCells cs with
      | some rest => some (p :: rest)
      | none => none
    | _ => none

end pod

theorem statefulset_roundtrip (ss : List AppsStatefulSet) :
    statefulset.FromCells (statefulset.ToCells ss) = some ss := by
  induction ss with
  | nil => rfl
  | cons a as ih =>
    simp only [statefulset.ToCells] at ih ⊢
    simp [statefulset.FromCells, ih]

theorem pod_roundtrip (ps : List Pod) :
    pod.fromCells (pod.toCells ps) = some ps := by
  induction ps with
  | nil => rfl
  | cons a as ih =>
    simp only [pod.toCells] at ih ⊢
    simp [pod.fromCells, ih]

/-- C4 — For every slice of concrete resources (pods, stateful sets),
`FromCells (ToCells x) = x`: the Cell conversion is lossless and
order-preserving, element `i` of the output wraps exactly element `i` of
the input. -/
theorem C4_cells_roundtrip (ss : List AppsStatefulSet) (ps : List Pod) (i : Nat) :
    statefulset.FromCells (statefulset.ToCells ss) = some ss
    ∧ pod.fromCells (pod.toCells ps) = some ps
    ∧ (statefulset.ToCells ss)[i]? = (ss[i]?).map DataCell.statefulSetCell
    ∧ (pod.toCells ps)[i]? = (ps[i]?).map DataCell.podCell := by
  refine ⟨statefulset_roundtrip ss, pod_roundtrip ps, ?_, ?_⟩
  · simp [statefulset.ToCells]
  · simp [pod.toCells]

/-- A sample pod used by witness theorems. -/
def samplePod : Pod :=
  { objectMeta := { name := "p", nspace := "default", creationTimestamp := 5,
                    labels := [("app", "x")], annotations := [] },
    status := { phase := PodPhase.running,
                conditions := [{ condType := "Ready", status := ConditionStatus.ctrue }],
                containerStatuses := [], hostIP := "10.0.0.1" } }

/-- A sample stateful set used by witness theorems. -/
def sampleStatefulSet : AppsStatefulSet :=
  { objectMeta := { name := "ss", nspace := "default", creationTimestamp := 7,
                    labels := [], annotations := [] },
    spec := { replicas := 2, selector := { matchLabels := [("app", "x")] },
              templateSpec := { containers := [{ image := "img" }] } },
    status := { replicas := 1 } }

/-- C7 — For every cell and every recognized property name, `GetProperty`
returns the corresponding comparable value of the wrapped resource; for
every unrecognized property name it returns the neutral value
(`nilValue`, the Go `nil`) which compares equal to itself, so sorting on
an unknown property name is a no-op and never an error. -/
theorem C7_get_property (p : Pod) (s : AppsStatefulSet) (name : String)
    (h : name ∉ [NameProperty, CreationTimestampProperty, NamespaceProperty, StatusProperty]) :
    PodCell.GetProperty p NameProperty = ComparableValue.str p.objectMeta.name
    ∧ PodCell.GetProperty p CreationTimestampProperty
        = ComparableValue.time p.objectMeta.creationTimestamp
    ∧ PodCell.GetProperty p NamespaceProperty = ComparableValue.str p.objectMeta.nspace
    ∧ PodCell.GetProperty p StatusProperty = ComparableValue.str p.status.phase.toGoString
    ∧ StatefulSetCell.GetProperty s NameProperty = ComparableValue.str s.objectMeta.name
    ∧ StatefulSetCell.GetProperty s CreationTimestampProperty
        = ComparableValue.time s.objectMeta.creationTimestamp
    ∧ StatefulSetCell.GetProperty s NamespaceProperty = ComparableValue.str s.objectMeta.nspace
    ∧ PodCell.GetProperty p name = ComparableValue.nilValue
    ∧ StatefulSetCell.GetProperty s name = ComparableValue.nilValue
    ∧ ComparableValue.cmp ComparableValue.nilValue ComparableValue.nilValue = Ordering.eq := by
  simp only [List.mem_cons, List.not_mem_nil, or_false] at h
  push_neg at h
  obtain ⟨h1, h2, h3, h4⟩ := h
  refine ⟨?_, ?_, ?_, ?_, ?_, ?_, ?_, ?_, ?_, rfl⟩
  · simp [PodCell.GetProperty]
  · simp [PodCell.GetProperty, CreationTimestampProperty, NameProperty]
  · simp [PodCell.GetProperty, NamespaceProperty, NameProperty, CreationTimestampProperty]
  · simp [PodCell.GetProperty, StatusProperty, NameProperty, CreationTimestampProperty,
      NamespaceProperty]
  · simp [StatefulSetCell.GetProperty]
  · simp [StatefulSetCell.GetProperty, CreationTimestampProperty, NameProperty]
  · simp [StatefulSetCell.GetProperty, NamespaceProperty, NameProperty,
      CreationTimestampProperty]
  · simp [PodCell.GetProperty, h1, h2, h3, h4]
  · simp [StatefulSetCell.GetProperty, h1, h2, h3]

/-- Witness for C7 at the unrecognized property name `"owner"`. -/
theorem C7_get_property_witness :
    PodCell.GetProperty samplePod "owner" = ComparableValue.nilValue :=
  (C7_get_property samplePod sampleStatefulSet "owner"
    (by decide)).2.2.2.2.2.2.2.1

/-- The `common.ListMeta`: the `TotalItems` count. -/
structure ListMeta where
  totalItems : Int
deriving DecidableEq, Repr

/-- The constant `common.ResourceKindCronJob`. -/
def ResourceKindCronJob : String := "cronjob"

/-- The constant `common.ResourceKindJob`. -/
def ResourceKindJob : String := "job"

/-- The constant `common.ResourceKindStatefulSet`. -/
def ResourceKindStatefulSet : String := "statefulset"

/-- The constant `common.ResourceKindDaemonSet`. -/
def ResourceKindDaemonSet : String := "daemonset"

/-- The constant `common.ResourceKindPod`. -/
def ResourceKindPod : String := "pod"

/-- The constant `api.CreatedByAnnotation`. -/
def createdByAnnotationKey : String := "kubernetes.io/created-by"

/-- The `GetContainerImages` (package `resource/pod`, `common.go`): the images
of all containers of a pod spec. -/
def GetContainerImages (podTemplate : PodSpecK8s) : List String :=
  podTemplate.containers.map (fun c => c.image)

/-- The `getRestartCount` (package `resource/pod`, `common.go`): total number
of container restarts of a pod. -/
def getRestartCount (pod : Pod) : Int :=
  pod.status.containerStatuses.foldl (fun acc cs => acc + cs.restartCount) 0

/-- The `pod.PodStatus` (view model). -/
structure PodStatusView where
  status : String
  podPhase : PodPhase
  hostIP : String
  containerStates : List String
deriving DecidableEq, Repr

/-- The `getPodStatus` (package `resource/pod`, `common.go`): summary of a
pod's status for the view model. -/
def getPodStatus (pod : Pod) (warnings : GoSlice Event) : PodStatusView :=
  { status := getPodStatusStatus pod warnings,
    podPhase := pod.status.phase,
    hostIP := pod.status.hostIP,
    containerStates := pod.status.containerStatuses.map (fun cs => cs.state) }

/-- The `pod.Pod` (view model), restricted to the fields the embedded code
fills (the per-pod metrics overlay is dropped by the spec-modelled
`CreatePodList` below, which passes no metrics). -/
structure PodView where
  objectMeta : ObjectMeta
  typeMeta : String
  podStatus : PodStatusView
  restartCount : Int
deriving DecidableEq, Repr

/-- The `ToPod` (package `resource/pod`, `common.go`), with a `none` metrics
argument (as produced by the spec-modelled `CreatePodList`). -/
def ToPod (pod : Pod) (warnings : GoSlice Event) : PodView :=
  { objectMeta := pod.objectMeta,
    typeMeta := ResourceKindPod,
    podStatus := getPodStatus pod warnings,
    restartCount := getRestartCount pod }

/-- The `pod.PodList` (view model). -/
structure PodList where
  listMeta : ListMeta
  pods : List PodView
deriving DecidableEq, Repr

/-- The `job.Job` (view model), restricted to the fields the embedded code
reads and fills. -/
structure JobView where
  objectMeta : ObjectMeta
  typeMeta : String
  pods : PodInfo
  podList : PodList
  containerImages : List String
deriving DecidableEq, Repr

/-- The `batch2.CronJobSpec`, restricted to the fields the embedded code
reads; `jobTemplateSpec` is `JobTemplate.Spec.Template.Spec`. -/
structure CronJobSpecK8s where
  schedule : String
  jobTemplateSpec : PodSpecK8s
deriving DecidableEq, Repr

/-- The `batch2.CronJobStatus`, abstracted to the active-job count. -/
structure CronJobStatusK8s where
  active : Int
deriving DecidableEq, Repr

/-- The `batch2.CronJob` / `batchv2alpha1.CronJob` (the two aliases in
`list.go` and `detail.go` have identical shape). -/
structure BatchCronJob where
  objectMeta : ObjectMeta
  spec : CronJobSpecK8s
  status : CronJobStatusK8s
deriving DecidableEq, Repr

/-- The `extractCreatedBy` (package `resource/cronjob`, `list.go`): looks up
the created-by annotation and returns the decoded reference, or `nil`
(here `none`) when the annotation is missing or fails to decode. -/
def extractCreatedBy (ann : List (String × AnnValue)) : Option ObjectReference :=
  match ann.lookup createdByAnnotationKey with
  | some (AnnValue.decoded r) => some r.reference
  | some (AnnValue.undecodable _) => none
  | none => none

/-- The `extractCreatedByc` (package `resource/cronjob`, `detail.go`):
verbatim copy of `extractCreatedBy`. -/
def extractCreatedByc (ann : List (String × AnnValue)) : Option ObjectReference :=
  match ann.lookup createdByAnnotationKey with
  | some (AnnValue.decoded r) => some r.reference
  | some (AnnValue.undecodable _) => none
  | none => none

/-- The body of the selection loop of `FilterJobByAnn`:
`continue` on an undecodable/missing annotation, append on a match. -/
def filterJobStep (cronJob : BatchCronJob) (acc : List JobView) (j : JobView) : List JobView :=
  match extractCreatedBy j.objectMeta.annotations with
  | none => acc
  | some ref =>
    if ref.name == cronJob.objectMeta.name
        && cronJob.objectMeta.nspace == j.objectMeta.nspace
    then acc ++ [j]
    else acc

/-- The Go function FilterJobByAnnotation (package `resource/cronjob`,
`list.go`), renamed here to `FilterJobByAnn`. -/
def FilterJobByAnn (cronJob : BatchCronJob) (jobs : List JobView) : List JobView :=
  jobs.foldl (filterJobStep cronJob) []

/-- The body of the selection loop of `FilterJobByAnnc`, verbatim
copy of `filterJobStep` using `extractCreatedByc`. -/
def filterJobStepc (cronJob : BatchCronJob) (acc : List JobView) (j : JobView) : List JobView :=
  match extractCreatedByc j.objectMeta.annotations with
  | none => acc
  | some ref =>
    if ref.name == cronJob.objectMeta.name
        && cronJob.objectMeta.nspace == j.objectMeta.nspace
    then acc ++ [j]
    else acc

/-- The Go function FilterJobByAnnotationc (package `resource/cronjob`,
`detail.go`), renamed here to `FilterJobByAnnc`: verbatim copy of
`FilterJobByAnn`. -/
def FilterJobByAnnc (cronJob : BatchCronJob) (jobs : List JobView) : List JobView :=
  jobs.foldl (filterJobStepc cronJob) []

/-- Specification-side matching predicate: the job's created-by
annotation decodes to a reference naming the cron job, and the job lives
in the cron job's namespace. -/
def jobMatchesCronJob (cronJob : BatchCronJob) (j : JobView) : Bool :=
  match extractCreatedBy j.objectMeta.annotations with
  | some ref =>
    ref.name == cronJob.objectMeta.name && cronJob.objectMeta.nspace == j.objectMeta.nspace
  | none => false

theorem filterJobFold_eq_filter (cronJob : BatchCronJob) (jobs : List JobView)
    (acc : List JobView) :
    jobs.foldl (filterJobStep cronJob) acc
    = acc ++ jobs.filter (jobMatchesCronJob cronJob) := by
  induction jobs generalizing acc with
  | nil => simp
  | cons j js ih =>
    simp only [List.foldl_cons, List.filter_cons]
    cases hex : extractCreatedBy j.objectMeta.annotations with
    | none =>
      have hm : jobMatchesCronJob cronJob j = false := by
        simp [jobMatchesCronJob, hex]
      have hstep : filterJobStep cronJob acc j = acc := by
        simp [filterJobStep, hex]
      rw [hstep, hm, ih]
      simp
    | some ref =>
      by_cases hb : (ref.name == cronJob.objectMeta.name
          && cronJob.objectMeta.nspace == j.objectMeta.nspace) = true
      · have hm : jobMatchesCronJob cronJob j = true := by
          simp only [jobMatchesCronJob, hex]
          exact hb
        have hstep : filterJobStep cronJob acc j = acc ++ [j] := by
          simp only [filterJobStep, hex]
          rw [if_pos hb]
        rw [hstep, hm, ih]
        simp
      · have hm : jobMatchesCronJob cronJob j = false := by
          simp only [jobMatchesCronJob, hex]
          exact Bool.eq_false_iff.mpr hb
        have hstep : filterJobStep cronJob acc j = acc := by
          simp only [filterJobStep, hex]
          rw [if_neg hb]
        rw [hstep, hm, ih]
        simp

/-- C6 — For every cron job and candidate job list, `FilterJobByAnn`
(and its verbatim copy `FilterJobByAnnc`) returns exactly the jobs
whose created-by annotation decodes to a serialized reference whose `Name`
equals the cron job's name and whose own namespace equals the cron job's
namespace; a job with a missing or undecodable annotation is silently
skipped (the predicate is false for it), never an error. -/
theorem C6_filter_job_matching (cronJob : BatchCronJob) (jobs : List JobView) :
    FilterJobByAnn cronJob jobs = jobs.filter (jobMatchesCronJob cronJob)
    ∧ FilterJobByAnnc cronJob jobs = jobs.filter (jobMatchesCronJob cronJob) := by
  constructor
  · exact filterJobFold_eq_filter cronJob jobs []
  · have h : FilterJobByAnnc cronJob jobs = FilterJobByAnn cronJob jobs := rfl
    rw [h]
    exact filterJobFold_eq_filter cronJob jobs []

/-- The `cronjob.CronJob` (view model of `list.go`), restricted to the fields
the embedded code fills. -/
structure CronJobView where
  objectMeta : ObjectMeta
  typeMeta : String
  spec : CronJobSpecK8s
  status : CronJobStatusK8s
  pods : PodInfo
  podList : PodList
deriving DecidableEq, Repr

/-- The `cronjob.CronJobDetail` (view model of `detail.go`), restricted to
the fields the embedded code fills. -/
structure CronJobDetailView where
  objectMeta : ObjectMeta
  typeMeta : String
  spec : CronJobSpecK8s
  status : CronJobStatusK8s
  containerImages : List String
  podInfo : PodInfo
  podList : PodList
deriving DecidableEq, Repr

/-- The counter accumulation step shared (textually) by the loops of
`toCronJob` and `toCronJobDetail`: note that `Current` accumulates the
job's `Succeeded` count, exactly as both sources write it. -/
def cronAddCounters (info : PodInfo) (j : JobView) : PodInfo :=
  { info with
    current := j.pods.succeeded + info.current,
    desired := j.pods.desired + info.desired,
    running := j.pods.running + info.running,
    pending := j.pods.pending + info.pending,
    failed := j.pods.failed + info.failed }

/-- The loop of `toCronJob` (package `resource/cronjob`, `list.go`),
acting on the components the loop mutates: accumulate the counters
always, append warnings only when the job's warnings are non-nil, and
always append the job's pods. -/
def toCronJobLoop : List JobView → PodInfo → List PodView → PodInfo × List PodView
  | [], info, plist => (info, plist)
  | j :: rest, info, plist =>
    let info := cronAddCounters info j
    let info :=
      match j.pods.warnings with
      | none => info
      | some w => { info with warnings := info.warnings.appendAll (some w) }
    toCronJobLoop rest info (plist ++ j.podList.pods)

/-- The loop of `toCronJobDetail` (package `resource/cronjob`,
`detail.go`): accumulate the counters, then `break` out of the whole loop
when the job's warnings are nil; otherwise append warnings and pods and
continue. -/
def toCronJobDetailLoop : List JobView → PodInfo → List PodView → PodInfo × List PodView
  | [], info, plist => (info, plist)
  | j :: rest, info, plist =>
    let info := cronAddCounters info j
    match j.pods.warnings with
    | none => (info, plist)
    | some w =>
      toCronJobDetailLoop rest
        { info with warnings := info.warnings.appendAll (some w) }
        (plist ++ j.podList.pods)

/-- The `toCronJob` (package `resource/cronjob`, `list.go`): aggregates the
matched jobs' pod counters, warnings and pod lists into the list-view
cron job, then clamps `Desired` up to the accumulated pod count. -/
def toCronJob (cronJob : BatchCronJob) (jobs : List JobView) : CronJobView :=
  let init : PodInfo :=
    { current := 0, desired := 0, running := 0, pending := 0, failed := 0,
      succeeded := 0, warnings := some [] }
  let st := toCronJobLoop jobs init []
  let info := st.1
  let plist := st.2
  let info :=
    if info.desired < (plist.length : Int) then { info with desired := (plist.length : Int) }
    else info
  { objectMeta := cronJob.objectMeta,
    typeMeta := ResourceKindCronJob,
    spec := cronJob.spec,
    status := cronJob.status,
    pods := info,
    podList := { listMeta := { totalItems := (plist.length : Int) }, pods := plist } }

/-- The `toCronJobDetail` (package `resource/cronjob`, `detail.go`): the
detail-view aggregation; it uses the breaking loop above and fills the
detail view (whose `TypeMeta` is, as in the source, `ResourceKindJob`). -/
def toCronJobDetail (cronjob : BatchCronJob) (jobs : List JobView) : CronJobDetailView :=
  let init : PodInfo :=
    { current := 0, desired := 0, running := 0, pending := 0, failed := 0,
      succeeded := 0, warnings := some [] }
  let st := toCronJobDetailLoop jobs init []
  let info := st.1
  let plist := st.2
  let info :=
    if info.desired < (plist.length : Int) then { info with desired := (plist.length : Int) }
    else info
  { objectMeta := cronjob.objectMeta,
    typeMeta := ResourceKindJob,
    spec := cronjob.spec,
    status := cronjob.status,
    containerImages := GetContainerImages cronjob.spec.jobTemplateSpec,
    podInfo := info,
    podList := { listMeta := { totalItems := (plist.length : Int) }, pods := plist } }

/-- A sample cron job used in the C9 theorems. -/
def sampleCronJob : BatchCronJob :=
  { objectMeta := { name := "cj", nspace := "default", creationTimestamp := 0,
                    labels := [], annotations := [] },
    spec := { schedule := "* * * * *", jobTemplateSpec := { containers := [] } },
    status := { active := 0 } }

/-- A job whose `Pods.Warnings` is the nil slice but whose pod list is
non-empty: the input separating the two cron-job aggregators. -/
def nilWarningsJob : JobView :=
  { objectMeta := { name := "j1", nspace := "default", creationTimestamp := 0,
                    labels := [], annotations := [] },
    typeMeta := "job",
    pods := { current := 0, desired := 0, running := 1, pending := 0, failed := 0,
              succeeded := 0, warnings := none },
    podList := { listMeta := { totalItems := 1 },
                 pods := [{ objectMeta := { name := "p1", nspace := "default",
                                            creationTimestamp := 0, labels := [],
                                            annotations := [] },
                            typeMeta := "pod",
                            podStatus := { status := "success",
                                           podPhase := PodPhase.running,
                                           hostIP := "", containerStates := [] },
                            restartCount := 0 }] },
    containerImages := [] }

/-- C9 counterexample — on a single matched job whose `Pods.Warnings` is
nil but whose pod list is non-empty, `toCronJob` and `toCronJobDetail`
disagree: the list view accumulates the job's pods (and clamps `Desired`
up to 1), the detail view breaks out of its loop before appending them. -/
theorem C9_counterexample :
    ¬((toCronJob sampleCronJob [nilWarningsJob]).pods
        = (toCronJobDetail sampleCronJob [nilWarningsJob]).podInfo
      ∧ (toCronJob sampleCronJob [nilWarningsJob]).podList.pods
        = (toCronJobDetail sampleCronJob [nilWarningsJob]).podList.pods) := by
  decide

theorem cronLoops_agree (jobs : List JobView)
    (h : ∀ j ∈ jobs, j.pods.warnings ≠ none) (info : PodInfo) (plist : List PodView) :
    toCronJobLoop jobs info plist = toCronJobDetailLoop jobs info plist := by
  induction jobs generalizing info plist with
  | nil => rfl
  | cons j rest ih =>
    have hj : j.pods.warnings ≠ none := h j (List.mem_cons_self j rest)
    cases hw : j.pods.warnings with
    | none => exact absurd hw hj
    | some w =>
      simp only [toCronJobLoop, toCronJobDetailLoop, hw]
      exact ih (fun x hx => h x (List.mem_cons_of_mem j hx)) _ _

/-- C9 amended — the list-view aggregator `toCronJob` and the detail-view
aggregator `toCronJobDetail` compute identical aggregate pod counters,
warning lists and pod lists from the same inputs, provided every matched
job's `Pods.Warnings` slice is non-nil; otherwise the detail view stops
accumulating at the first job with nil warnings and omits its pods, while
the list view keeps accumulating (see the counterexample). -/
theorem C9_amended_aggregators_agree (cronJob : BatchCronJob) (jobs : List JobView)
    (h : ∀ j ∈ jobs, j.pods.warnings ≠ none) :
    (toCronJob cronJob jobs).pods = (toCronJobDetail cronJob jobs).podInfo
    ∧ (toCronJob cronJob jobs).podList = (toCronJobDetail cronJob jobs).podList := by
  simp only [toCronJob, toCronJobDetail]
  rw [cronLoops_agree jobs h]
  exact ⟨rfl, rfl⟩

/-- Witness for the amended C9 on a job list with non-nil warnings. -/
theorem C9_amended_aggregators_agree_witness :
    (toCronJob sampleCronJob [{ nilWarningsJob with
        pods := { nilWarningsJob.pods with warnings := some [] } }]).pods
      = (toCronJobDetail sampleCronJob [{ nilWarningsJob with
          pods := { nilWarningsJob.pods with warnings := some [] } }]).podInfo :=
  (C9_amended_aggregators_agree sampleCronJob
    [{ nilWarningsJob with pods := { nilWarningsJob.pods with warnings := some [] } }]
    (by intro j hj; simp at hj; subst hj; simp)).1

/-- Modelled from the spec: `metric.Metric` (the `metric` package's data
model is consumed opaquely here): a named metric with an aggregate value. -/
structure Metric where
  name : String
  value : Int
deriving DecidableEq, Repr

/-- Modelled from the spec: the resolution of a `dataselect.MetricPromise`
(the `dataselect` package is not among the available sources). The promise
is a deferred single-resolution container; its resolved state is the
cumulative metrics slice plus an error, which is what `GetMetrics()`
returns to the caller. -/
structure MetricPromise where
  metrics : GoSlice Metric
  err : Option K8sError
deriving DecidableEq, Repr

/-- The `GetMetrics()` on a resolved promise: the cumulative metrics and the
error of the asynchronous fetch. -/
def MetricPromise.GetMetrics (p : MetricPromise) : GoSlice Metric × Option K8sError :=
  (p.metrics, p.err)

/-- Modelled from the spec: `common.FilterNamespacedPodsBySelector` —
"Matching is exact-namespace plus selector-subset-of-labels; a controller
with an empty/nil selector matches nothing". -/
def FilterNamespacedPodsBySelector (pods : List Pod) (nspace : String)
    (matchLabels : List (String × String)) : List Pod :=
  if matchLabels.isEmpty then []
  else
    pods.filter (fun p =>
      p.objectMeta.nspace == nspace
        && matchLabels.all (fun kv => p.objectMeta.labels.contains kv))

/-- Modelled from the spec: `common.FilterNamespacedPodsByLabelSelector`
(used by the daemon-set list); the same matching on a `LabelSelector`. -/
def FilterNamespacedPodsByLabelSelector (pods : List Pod) (nspace : String)
    (selector : LabelSelector) : List Pod :=
  FilterNamespacedPodsBySelector pods nspace selector.matchLabels

/-- Modelled from the spec: `event.GetPodsEventWarnings` — the warning
events associated with the given pods. -/
def GetPodsEventWarnings (events : List Event) (pods : List Pod) : List Event :=
  events.filter (fun e =>
    e.eventType == "Warning"
      && pods.any (fun p =>
        e.involvedObjectName == p.objectMeta.name
          && e.involvedObjectNamespace == p.objectMeta.nspace))

/-- Modelled from the spec: `pod.CreatePodList` — builds the pod-list view
of the given pods with their per-pod warnings (the per-pod metric overlay
is best-effort and passed as absent). -/
def CreatePodList (pods : List Pod) (events : List Event) : PodList :=
  { listMeta := { totalItems := (pods.length : Int) },
    pods := pods.map (fun p => ToPod p (some (GetPodsEventWarnings events [p]))) }

/-- The `batch.JobSpec`, restricted to the fields the embedded code reads;
`completions` is the Go `*int32` field, read behind a nil check. -/
structure JobSpecK8s where
  selector : LabelSelector
  completions : Option Int
  templateSpec : PodSpecK8s
deriving DecidableEq, Repr

/-- The `batch.JobStatus`, restricted to `Active`. -/
structure JobStatusK8s where
  active : Int
deriving DecidableEq, Repr

/-- The `batch.Job` (the Kubernetes API object), restricted to the fields the
embedded code reads. -/
structure BatchJob where
  objectMeta : ObjectMeta
  spec : JobSpecK8s
  status : JobStatusK8s
deriving DecidableEq, Repr

/-- The `extensions.DaemonSetSpec`, restricted to the fields the embedded
code reads. -/
structure DaemonSetSpecK8s where
  selector : LabelSelector
  templateSpec : PodSpecK8s
deriving DecidableEq, Repr

/-- The `extensions.DaemonSetStatus`, restricted to the fields the embedded
code reads. -/
structure DaemonSetStatusK8s where
  currentNumberScheduled : Int
  desiredNumberScheduled : Int
deriving DecidableEq, Repr

/-- The `extensions.DaemonSet` (the Kubernetes API object), restricted to the
fields the embedded code reads. -/
structure ExtDaemonSet where
  objectMeta : ObjectMeta
  spec : DaemonSetSpecK8s
  status : DaemonSetStatusK8s
deriving DecidableEq, Repr

/-- The `job.JobList` (view model). -/
structure JobList where
  listMeta : ListMeta
  jobs : List JobView
  cumulativeMetrics : GoSlice Metric
deriving DecidableEq, Repr

/-- The `statefulset.StatefulSet` (view model). -/
structure StatefulSetView where
  objectMeta : ObjectMeta
  typeMeta : String
  pods : PodInfo
  podList : PodList
  containerImages : List String
deriving DecidableEq, Repr

/-- The `statefulset.StatefulSetList` (view model). -/
structure StatefulSetList where
  listMeta : ListMeta
  statefulSets : List StatefulSetView
  cumulativeMetrics : GoSlice Metric
deriving DecidableEq, Repr

/-- The `daemonset.DaemonSet` (view model). -/
structure DaemonSetView where
  objectMeta : ObjectMeta
  typeMeta : String
  pods : PodInfo
  podList : PodList
  containerImages : List String
deriving DecidableEq, Repr

/-- The `daemonset.DaemonSetList` (view model). -/
structure DaemonSetList where
  listMeta : ListMeta
  daemonSets : List DaemonSetView
  cumulativeMetrics : GoSlice Metric
deriving DecidableEq, Repr

/-- The `cronjob.CronJobList` (view model; the `Errors` field, never filled
by the embedded code, is omitted). -/
structure CronJobList where
  listMeta : ListMeta
  cumulativeMetrics : GoSlice Metric
  cronJobs : List CronJobView
deriving DecidableEq, Repr

/-- The `ToJob` (package `resource/job`, `list.go`). -/
def ToJob (job : BatchJob) (podInfo : PodInfo) (podlist : PodList) : JobView :=
  { objectMeta := job.objectMeta,
    typeMeta := ResourceKindJob,
    containerImages := GetContainerImages job.spec.templateSpec,
    pods := podInfo,
    podList := podlist }

/-- The `getJobPods` (package `resource/job`, `list.go`): filters the shared
pod list by the job's namespace and selector and builds a pod list view
(with no events). -/
def getJobPods (jb : BatchJob) (podlist : List Pod) : PodList :=
  CreatePodList
    (FilterNamespacedPodsBySelector podlist jb.objectMeta.nspace jb.spec.selector.matchLabels)
    []

/-- The body of the per-job loop of `CreateJobList`. -/
def createJobItem (pods : List Pod) (events : List Event) (job : BatchJob) : JobView :=
  let completions :=
    match job.spec.completions with
    | some c => c
    | none => 0
  let matchingPods :=
    FilterNamespacedPodsBySelector pods job.objectMeta.nspace job.spec.selector.matchLabels
  let podInfo := GetPodEventInfo job.status.active completions matchingPods
    (some (GetPodsEventWarnings events matchingPods))
  ToJob job podInfo (getJobPods job pods)

/-- The `CreateJobList` (package `resource/job`, `list.go`). The dataselect
engine `GenericDataSelectWithMetrics` is not among the available sources;
per the spec it returns the filtered/sorted/paginated cells (a function of
the cells and the query only, passed here as `select`, already composed
with the `ToCells`/`FromCells` conversions at this call site) plus a
metric promise whose resolution is passed as `promise`. `TotalItems` is
the pre-selection length; on a metric error the cumulative metrics are
replaced by an empty non-nil slice. -/
def CreateJobList (select : List BatchJob → List BatchJob) (promise : MetricPromise)
    (jobs : List BatchJob) (pods : List Pod) (events : List Event) : JobList :=
  let totalItems := (jobs.length : Int)
  let selected := select jobs
  let views := selected.map (createJobItem pods events)
  let gm := promise.GetMetrics
  { listMeta := { totalItems := totalItems },
    jobs := views,
    cumulativeMetrics :=
      match gm.2 with
      | some _ => some []
      | none => gm.1 }

/-- The `ToStatefulSet` (package `resource/statefulset`). -/
def ToStatefulSet (statefulSet : AppsStatefulSet) (podInfo : PodInfo) (pods : PodList) :
    StatefulSetView :=
  { objectMeta := statefulSet.objectMeta,
    typeMeta := ResourceKindStatefulSet,
    containerImages := GetContainerImages statefulSet.spec.templateSpec,
    pods := podInfo,
    podList := pods }

/-- The `getStatefulSetPods` (package `resource/statefulset`): builds the pod
list view of the matching pods (with no events). -/
def getStatefulSetPods (pods : List Pod) : PodList :=
  CreatePodList pods []

/-- The body of the per-stateful-set loop of `CreateStatefulSetList`.
`spec.replicas` is the Go `*int32` dereferenced unconditionally. -/
def createStatefulSetItem (pods : List Pod) (events : List Event)
    (statefulSet : AppsStatefulSet) : StatefulSetView :=
  let matchingPods := FilterNamespacedPodsBySelector pods statefulSet.objectMeta.nspace
    statefulSet.spec.selector.matchLabels
  let podInfo := GetPodEventInfo statefulSet.status.replicas statefulSet.spec.replicas
    matchingPods (some (GetPodsEventWarnings events matchingPods))
  ToStatefulSet statefulSet podInfo (getStatefulSetPods matchingPods)

/-- The `CreateStatefulSetList` (package `resource/statefulset`); same
dataselect conventions as `CreateJobList`. -/
def CreateStatefulSetList (select : List AppsStatefulSet → List AppsStatefulSet)
    (promise : MetricPromise) (statefulSets : List AppsStatefulSet) (pods : List Pod)
    (events : List Event) : StatefulSetList :=
  let totalItems := (statefulSets.length : Int)
  let selected := select statefulSets
  let views := selected.map (createStatefulSetItem pods events)
  let gm := promise.GetMetrics
  { listMeta := { totalItems := totalItems },
    statefulSets := views,
    cumulativeMetrics :=
      match gm.2 with
      | some _ => some []
      | none => gm.1 }

/-- The `getDaemonSetPods` (package `resource/daemonset`): filters the shared
pod list by namespace and selector and builds a pod list view. -/
def getDaemonSetPods (daemonSet : ExtDaemonSet) (pods : List Pod) : PodList :=
  CreatePodList
    (FilterNamespacedPodsBySelector pods daemonSet.objectMeta.nspace
      daemonSet.spec.selector.matchLabels)
    []

/-- The body of the per-daemon-set loop of `CreateDaemonSetList`: uses
`GetPodInfo` and then overwrites its warnings with the pods' warning
events. -/
def createDaemonSetItem (pods : List Pod) (events : List Event)
    (daemonSet : ExtDaemonSet) : DaemonSetView :=
  let matchingPods := FilterNamespacedPodsByLabelSelector pods daemonSet.objectMeta.nspace
    daemonSet.spec.selector
  let podInfo := GetPodInfo daemonSet.status.currentNumberScheduled
    daemonSet.status.desiredNumberScheduled matchingPods
  let podInfo := { podInfo with warnings := some (GetPodsEventWarnings events matchingPods) }
  { objectMeta := daemonSet.objectMeta,
    typeMeta := ResourceKindDaemonSet,
    pods := podInfo,
    podList := getDaemonSetPods daemonSet pods,
    containerImages := GetContainerImages daemonSet.spec.templateSpec }

/-- The `CreateDaemonSetList` (package `resource/daemonset`); same dataselect
conventions as `CreateJobList`. -/
def CreateDaemonSetList (select : List ExtDaemonSet → List ExtDaemonSet)
    (promise : MetricPromise) (daemonSets : List ExtDaemonSet) (pods : List Pod)
    (events : List Event) : DaemonSetList :=
  let totalItems := (daemonSets.length : Int)
  let selected := select daemonSets
  let views := selected.map (createDaemonSetItem pods events)
  let gm := promise.GetMetrics
  { listMeta := { totalItems := totalItems },
    daemonSets := views,
    cumulativeMetrics :=
      match gm.2 with
      | some _ => some []
      | none => gm.1 }

/-- The `toCronJobList` (package `resource/cronjob`, `list.go`): correlates
each cron job with its jobs through `FilterJobByAnn` and sets the
cumulative metrics to an empty non-nil slice. -/
def toCronJobList (cronJobs : List BatchCronJob) (jobs : JobList) : CronJobList :=
  { listMeta := { totalItems := (cronJobs.length : Int) },
    cronJobs := cronJobs.map (fun cj => toCronJob cj (FilterJobByAnn cj jobs.jobs)),
    cumulativeMetrics := some [] }

/-- The `GetStatefulSetListFromChannels` (package `resource/statefulset`). The
channel reads are modelled by passing each channel's delivered list and
error as arguments; `Except` models the Go `(*StatefulSetList, error)`
pair (`ok` = non-nil list and nil error, `error` = nil list and that
error). The `NotFound` early return builds
`&StatefulSetList{StatefulSets: make(..., 0)}`, whose `CumulativeMetrics`
field stays the nil slice. -/
def GetStatefulSetListFromChannels (select : List AppsStatefulSet → List AppsStatefulSet)
    (promise : MetricPromise)
    (statefulSets : List AppsStatefulSet) (ssErr : Option K8sError)
    (pods : List Pod) (podErr : Option K8sError)
    (events : List Event) (evErr : Option K8sError) : Except K8sError StatefulSetList :=
  match ssErr with
  | some err =>
    if err.isNotFoundStatus then
      Except.ok { listMeta := { totalItems := 0 }, statefulSets := [],
                  cumulativeMetrics := none }
    else Except.error err
  | none =>
    match podErr with
    | some err => Except.error err
    | none =>
      match evErr with
      | some err => Except.error err
      | none =>
        Except.ok (CreateStatefulSetList select promise statefulSets pods events)

/-- The `GetJobListFromChannels` (package `resource/job`, `list.go`); same
conventions as `GetStatefulSetListFromChannels`. -/
def GetJobListFromChannels (select : List BatchJob → List BatchJob)
    (promise : MetricPromise)
    (jobs : List BatchJob) (jobErr : Option K8sError)
    (pods : List Pod) (podErr : Option K8sError)
    (events : List Event) (evErr : Option K8sError) : Except K8sError JobList :=
  match jobErr with
  | some err =>
    if err.isNotFoundStatus then
      Except.ok { listMeta := { totalItems := 0 }, jobs := [], cumulativeMetrics := none }
    else Except.error err
  | none =>
    match podErr with
    | some err => Except.error err
    | none =>
      match evErr with
      | some err => Except.error err
      | none => Except.ok (CreateJobList select promise jobs pods events)

/-- The `GetCronJobListFromChannels` (package `resource/cronjob`, `list.go`):
reads the cron-job channel first (with the `NotFound` translation), then
the job, pod and event channels, then builds the job list and correlates
it into the cron-job list. -/
def GetCronJobListFromChannels (select : List BatchJob → List BatchJob)
    (promise : MetricPromise)
    (cronJobs : List BatchCronJob) (cjErr : Option K8sError)
    (jobs : List BatchJob) (jobErr : Option K8sError)
    (pods : List Pod) (podErr : Option K8sError)
    (events : List Event) (evErr : Option K8sError) : Except K8sError CronJobList :=
  match cjErr with
  | some err =>
    if err.isNotFoundStatus then
      Except.ok { listMeta := { totalItems := 0 }, cumulativeMetrics := none, cronJobs := [] }
    else Except.error err
  | none =>
    match jobErr with
    | some err => Except.error err
    | none =>
      match podErr with
      | some err => Except.error err
      | none =>
        match evErr with
        | some err => Except.error err
        | none =>
          Except.ok (toCronJobList cronJobs (CreateJobList select promise jobs pods events))

/-- C2 — For every channel bundle, when the primary list fetch fails with
a status error whose `Reason` is `"NotFound"`, the list function
(`GetStatefulSetListFromChannels`, `GetJobListFromChannels`,
`GetCronJobListFromChannels`) returns a non-nil empty list and a nil
error; for every other fetch error (a non-NotFound primary error, or any
secondary fetch error) it returns a nil list and that error. -/
theorem C2_notfound_translation
    (selectS : List AppsStatefulSet → List AppsStatefulSet)
    (selectJ : List BatchJob → List BatchJob) (promise : MetricPromise)
    (statefulSets : List AppsStatefulSet) (cronJobs : List BatchCronJob)
    (jobs : List BatchJob) (pods : List Pod) (events : List Event)
    (e : K8sError) (podErr evErr : Option K8sError) :
    (e.isNotFoundStatus = true →
      GetStatefulSetListFromChannels selectS promise statefulSets (some e) pods podErr
          events evErr
        = Except.ok { listMeta := { totalItems := 0 }, statefulSets := [],
                      cumulativeMetrics := none }
      ∧ GetJobListFromChannels selectJ promise jobs (some e) pods podErr events evErr
        = Except.ok { listMeta := { totalItems := 0 }, jobs := [], cumulativeMetrics := none }
      ∧ GetCronJobListFromChannels selectJ promise cronJobs (some e) jobs none pods podErr
          events evErr
        = Except.ok { listMeta := { totalItems := 0 }, cumulativeMetrics := none,
                      cronJobs := [] })
    ∧ (e.isNotFoundStatus = false →
      GetStatefulSetListFromChannels selectS promise statefulSets (some e) pods podErr
          events evErr
        = Except.error e
      ∧ GetJobListFromChannels selectJ promise jobs (some e) pods podErr events evErr
        = Except.error e
      ∧ GetCronJobListFromChannels selectJ promise cronJobs (some e) jobs none pods podErr
          events evErr
        = Except.error e)
    ∧ (GetStatefulSetListFromChannels selectS promise statefulSets none pods (some e)
          events evErr
        = Except.error e
      ∧ GetStatefulSetListFromChannels selectS promise statefulSets none pods none
          events (some e)
        = Except.error e
      ∧ GetJobListFromChannels selectJ promise jobs none pods (some e) events evErr
        = Except.error e
      ∧ GetJobListFromChannels selectJ promise jobs none pods none events (some e)
        = Except.error e
      ∧ GetCronJobListFromChannels selectJ promise cronJobs none jobs (some e) pods podErr
          events evErr
        = Except.error e
      ∧ GetCronJobListFromChannels selectJ promise cronJobs none jobs none pods (some e)
          events evErr
        = Except.error e
      ∧ GetCronJobListFromChannels selectJ promise cronJobs none jobs none pods none
          events (some e)
        = Except.error e)
    ∧ GetStatefulSetListFromChannels selectS promise statefulSets none pods none events none
        = Except.ok (CreateStatefulSetList selectS promise statefulSets pods events) := by
  refine ⟨?_, ?_, ?_, rfl⟩
  · intro hnf
    refine ⟨?_, ?_, ?_⟩
    · simp [GetStatefulSetListFromChannels, hnf]
    · simp [GetJobListFromChannels, hnf]
    · simp [GetCronJobListFromChannels, hnf]
  · intro hnf
    refine ⟨?_, ?_, ?_⟩
    · simp [GetStatefulSetListFromChannels, hnf]
    · simp [GetJobListFromChannels, hnf]
    · simp [GetCronJobListFromChannels, hnf]
  · exact ⟨rfl, rfl, rfl, rfl, rfl, rfl, rfl⟩

/-- Witness for C2: a concrete `NotFound` status error on the primary
stateful-set fetch is translated into a non-nil empty list and a nil
error. -/
theorem C2_notfound_translation_witness :
    GetStatefulSetListFromChannels (fun x => x) { metrics := some [], err := none }
        [sampleStatefulSet] (some (K8sError.status "NotFound")) [] none [] none
      = Except.ok { listMeta := { totalItems := 0 }, statefulSets := [],
                    cumulativeMetrics := none } :=
  ((C2_notfound_translation (fun x => x) (fun x => x)
    { metrics := some [], err := none } [sampleStatefulSet] [] [] [] []
    (K8sError.status "NotFound") none none).1 rfl).1

/-- C3 — For every input list and query, when the metric promise resolves
with a non-nil error, the list-building functions (`CreateJobList`,
`CreateStatefulSetList`, `CreateDaemonSetList`) still return the selected
list with `CumulativeMetrics` set to an empty non-nil metrics slice; a
metric failure never causes the function to fail or alter the selection
(the items and the list metadata are the same as under any other promise
resolution). -/
theorem C3_metric_failure_non_fatal
    (selectJ : List BatchJob → List BatchJob)
    (selectS : List AppsStatefulSet → List AppsStatefulSet)
    (selectD : List ExtDaemonSet → List ExtDaemonSet)
    (p q : MetricPromise) (e : K8sError)
    (jobs : List BatchJob) (statefulSets : List AppsStatefulSet)
    (daemonSets : List ExtDaemonSet) (pods : List Pod) (events : List Event)
    (h : p.err = some e) :
    (CreateJobList selectJ p jobs pods events).cumulativeMetrics = some []
    ∧ (CreateJobList selectJ p jobs pods events).jobs
      = (CreateJobList selectJ q jobs pods events).jobs
    ∧ (CreateJobList selectJ p jobs pods events).listMeta
      = (CreateJobList selectJ q jobs pods events).listMeta
    ∧ (CreateStatefulSetList selectS p statefulSets pods events).cumulativeMetrics = some []
    ∧ (CreateStatefulSetList selectS p statefulSets pods events).statefulSets
      = (CreateStatefulSetList selectS q statefulSets pods events).statefulSets
    ∧ (CreateStatefulSetList selectS p statefulSets pods events).listMeta
      = (CreateStatefulSetList selectS q statefulSets pods events).listMeta
    ∧ (CreateDaemonSetList selectD p daemonSets pods events).cumulativeMetrics = some []
    ∧ (CreateDaemonSetList selectD p daemonSets pods events).daemonSets
      = (CreateDaemonSetList selectD q daemonSets pods events).daemonSets
    ∧ (CreateDaemonSetList selectD p daemonSets pods events).listMeta
      = (CreateDaemonSetList selectD q daemonSets pods events).listMeta := by
  refine ⟨?_, rfl, rfl, ?_, rfl, rfl, ?_, rfl, rfl⟩
  · simp [CreateJobList, MetricPromise.GetMetrics, h]
  · simp [CreateStatefulSetList, MetricPromise.GetMetrics, h]
  · simp [CreateDaemonSetList, MetricPromise.GetMetrics, h]

/-- Witness for C3: with a failed metric promise the job list still comes
back with an empty non-nil cumulative-metrics slice. -/
theorem C3_metric_failure_non_fatal_witness :
    (CreateJobList (fun x => x) { metrics := none, err := some (K8sError.basic "boom") }
        [] [] []).cumulativeMetrics = some [] :=
  (C3_metric_failure_non_fatal (fun x => x) (fun x => x) (fun x => x)
    { metrics := none, err := some (K8sError.basic "boom") }
    { metrics := some [], err := none } (K8sError.basic "boom")
    [] [] [] [] [] rfl).1

/-- The first non-nil error among a sequence of channel reads. -/
def firstSome : List (Option K8sError) → Option K8sError
  | [] => none
  | none :: rest => firstSome rest
  | some e :: _ => some e

/-- The error-collection loop
`for i := 0; i < numErrs; i++ { err := <-errChan; if err != nil { return nil, err } }`
of the aggregate category handlers, as a function of the order in which
the sub-task errors arrive on `errChan`: the result is the first non-nil
error among the first `numErrs` arrivals (`none` = the handler proceeds
to read the result channels). -/
def readFirstError (arrival : List (Option K8sError)) (numErrs : Nat) : Option K8sError :=
  firstSome (arrival.take numErrs)

/-- The `numErrs := 4` in `GetClusterFromChannels` (`cluster.go`). -/
def clusterNumErrs : Nat := 4

/-- The number of sub-fetch goroutines `GetClusterFromChannels` launches
(namespace, node, persistent volume, RBAC role, storage class). -/
def clusterSubFetches : Nat := 5

/-- The error surfaced by `GetClusterFromChannels` (`cluster.go`) given
the arrival order of its five sub-task errors: it waits on only
`clusterNumErrs = 4` of them. -/
def GetClusterFromChannelsErr (arrival : List (Option K8sError)) : Option K8sError :=
  readFirstError arrival clusterNumErrs

/-- The `numErrs := 3` in `GetConfigFromChannels` (`config.go`), equal to its
three sub-fetch goroutines. -/
def configNumErrs : Nat := 3

/-- The error surfaced by `GetConfigFromChannels` (`config.go`). -/
def GetConfigFromChannelsErr (arrival : List (Option K8sError)) : Option K8sError :=
  readFirstError arrival configNumErrs

/-- The `numErrs := 2` in `GetDiscoveryFromChannels` (`discovery.go`), equal
to its two sub-fetch goroutines. -/
def discoveryNumErrs : Nat := 2

/-- The error surfaced by `GetDiscoveryFromChannels` (`discovery.go`). -/
def GetDiscoveryFromChannelsErr (arrival : List (Option K8sError)) : Option K8sError :=
  readFirstError arrival discoveryNumErrs

/-- C1 — the claim says every aggregate category handler waits on the
error of every launched sub-task and surfaces any non-nil error. The code
violates this in `GetClusterFromChannels`: it launches five sub-fetch
goroutines but sets `numErrs := 4`, so an error whose send is the fifth
to arrive on `errChan` is never read — the handler proceeds (and then
dereferences the failed goroutine's nil result) instead of returning the
error. `GetConfigFromChannels` (3 of 3) and `GetDiscoveryFromChannels`
(2 of 2) do wait on all their sub-tasks and surface the error. -/
theorem C1_cluster_skips_fifth_error (e : K8sError) :
    GetClusterFromChannelsErr [none, none, none, none, some e] = none
    ∧ clusterSubFetches = 5
    ∧ clusterNumErrs = 4
    ∧ GetClusterFromChannelsErr [some e, none, none, none, none] = some e
    ∧ GetConfigFromChannelsErr [none, none, some e] = some e
    ∧ GetDiscoveryFromChannelsErr [none, some e] = some e :=
  ⟨rfl, rfl, rfl, rfl, rfl, rfl⟩

/-- A buffered channel together with how one aggregate-handler run uses
it: its capacity, the total number of sends the producer goroutines
perform on it, and the number of receives the consumer performs on this
control path before returning. For the straight-line producers and
consumers of this code (each producer performs a fixed sequence of sends,
the consumer a fixed number of receives and then returns), all sends on a
channel eventually complete iff the total sends fit into the capacity
plus the receives. -/
structure ChannelUse where
  cap : Nat
  writes : Nat
  reads : Nat
deriving DecidableEq, Repr

/-- Whether every producer send on this channel eventually completes
(no goroutine stays blocked on it). -/
def ChannelUse.writersComplete (c : ChannelUse) : Bool :=
  decide (c.writes ≤ c.cap + c.reads)

/-- The channels of `GetClusterFromChannels` (`cluster.go`) on the run
where a failing sub-fetch's error arrives first: `errChan` has capacity
`numErrs = 4`, receives all five goroutines' error sends, and is read
once before the early `return nil, err`; the five result channels
(`nsChan`, `nodeChan`, `pvChan`, `roleChan`, `storageChan`) are
unbuffered (`make(chan *T)`), each written once by its goroutine, and
never read on this path. -/
def clusterErrorPathChannels : List ChannelUse :=
  [{ cap := 4, writes := 5, reads := 1 },
   { cap := 0, writes := 1, reads := 0 },
   { cap := 0, writes := 1, reads := 0 },
   { cap := 0, writes := 1, reads := 0 },
   { cap := 0, writes := 1, reads := 0 },
   { cap := 0, writes := 1, reads := 0 }]

/-- Modelled from the spec: the fetch channels used by
`GetStatefulSetListFromChannels` — per the spec each `ResourceChannel`
"owns two single-element result-delivery slots ... written at most once
by the fetch goroutine, read at most once by the consumer" (capacity 1,
one write). On the `NotFound` early return the stateful-set list and
error channels are read once and the pod and event channels are not read
at all. -/
def statefulSetNotFoundPathChannels : List ChannelUse :=
  [{ cap := 1, writes := 1, reads := 1 },
   { cap := 1, writes := 1, reads := 1 },
   { cap := 1, writes := 1, reads := 0 },
   { cap := 1, writes := 1, reads := 0 },
   { cap := 1, writes := 1, reads := 0 },
   { cap := 1, writes := 1, reads := 0 }]

/-- Modelled from the spec: the same channels on the run where the
stateful-set fetch succeeds and the sibling pod fetch fails — the event
channels are left unread after the early error return. -/
def statefulSetPodErrorPathChannels : List ChannelUse :=
  [{ cap := 1, writes := 1, reads := 1 },
   { cap := 1, writes := 1, reads := 1 },
   { cap := 1, writes := 1, reads := 1 },
   { cap := 1, writes := 1, reads := 1 },
   { cap := 1, writes := 1, reads := 0 },
   { cap := 1, writes := 1, reads := 0 }]

/-- C8 counterexample — the claim says that on the error path of every
aggregate call no goroutine remains blocked on an unread channel. On the
error path of `GetClusterFromChannels` the five unbuffered result
channels each hold a pending send with no receiver: every sub-fetch
goroutine stays blocked forever (a goroutine leak), so the claim fails
there. -/
theorem C8_counterexample :
    ¬(clusterErrorPathChannels.all ChannelUse.writersComplete = true) := by
  decide

/-- C8 amended — two sibling fetches, one erroring and one succeeding,
cause the aggregate call to return the error and discard the successful
value; in the resource-channel-based list functions
(`GetStatefulSetListFromChannels`) every fetch channel is a capacity-1
buffer written exactly once, so no fetch goroutine ever blocks, even on
the `NotFound` and error paths where some channels are left unread (the
buffered values are simply dropped, not drained); in
`GetClusterFromChannels`, however, the consumer also returns the first
error, but its five result channels are unbuffered and on the early error
return their writer goroutines remain blocked forever. -/
theorem C8_amended_no_writer_blocks (e : K8sError)
    (select : List AppsStatefulSet → List AppsStatefulSet) (promise : MetricPromise)
    (statefulSets : List AppsStatefulSet) (pods : List Pod) (events : List Event)
    (evErr : Option K8sError) (rest : List (Option K8sError)) :
    statefulSetNotFoundPathChannels.all ChannelUse.writersComplete = true
    ∧ statefulSetPodErrorPathChannels.all ChannelUse.writersComplete = true
    ∧ GetStatefulSetListFromChannels select promise statefulSets none pods (some e)
        events evErr
      = Except.error e
    ∧ GetClusterFromChannelsErr (some e :: rest) = some e
    ∧ (clusterErrorPathChannels.take 1).all ChannelUse.writersComplete = true
    ∧ (clusterErrorPathChannels.drop 1).all ChannelUse.writersComplete = false := by
  exact ⟨by decide, by decide, rfl, rfl, by decide, by decide⟩
